import Mathlib

set_option autoImplicit false

namespace Testcontainer

/-! Shallow embedding of the image-reference parser, readiness-wait strategy,
container lifecycle client and port-mapping resolver of the testcontainer
library.  Strings are `String` (lists of characters), fallible Rust code
returns `Except`, Rust panics are an explicit `Panic` error layer, and the
outcome of each external runtime call is an explicit input of the function
that performs it. -/

/-! ## String utilities mirroring Rust `str` operations -/

/-- Boolean prefix test on character lists. -/
def isPrefB : List Char → List Char → Bool
  | [], _ => true
  | _ :: _, [] => false
  | a :: as, b :: bs => a == b && isPrefB as bs

/-- Split a character list at the FIRST occurrence of `sep`, mirroring Rust
`str::split_once`: returns the part before and the part after the separator. -/
def splitOnceL (sep : List Char) : List Char → Option (List Char × List Char)
  | [] => if isPrefB sep [] then some ([], []) else none
  | c :: rest =>
    if isPrefB sep (c :: rest) then some ([], (c :: rest).drop sep.length)
    else
      match splitOnceL sep rest with
      | some (a, b) => some (c :: a, b)
      | none => none

/-- Rust `str::split_once` on `String`s. -/
def strSplitOnce (s sep : String) : Option (String × String) :=
  (splitOnceL sep.data s.data).map fun p => (⟨p.1⟩, ⟨p.2⟩)

/-- Rust `str::contains` with a string pattern (substring test). -/
def strHasSub (s sub : String) : Bool :=
  (splitOnceL sub.data s.data).isSome

/-- Rust `str::starts_with`. -/
def strStartsWith (s p : String) : Bool :=
  isPrefB p.data s.data

/-! ## Image reference parser (`src/image.rs`) -/

/-- The class `\w` of the tag regular expression, i.e. `[A-Za-z0-9_]`. -/
def isWordChar (c : Char) : Bool := c.isAlphanum || c == '_'

/-- A character allowed after the first one by the tag pattern. -/
def isTagChar (c : Char) : Bool := isWordChar c || c == '.' || c == '-'

/-- The tag pattern `^[\w][\w.\-]{0,127}$`. -/
def tagMatches (s : String) : Bool :=
  match s.data with
  | [] => false
  | c :: cs => isWordChar c && cs.length ≤ 127 && cs.all isTagChar

/-- A hexadecimal digit, `[0-9a-fA-F]`. -/
def isHexChar (c : Char) : Bool :=
  c.isDigit || ('a' ≤ c && c ≤ 'f') || ('A' ≤ c && c ≤ 'F')

/-- The digest pattern `^[0-9a-fA-F]{32,}$`. -/
def sha256Matches (s : String) : Bool :=
  decide (32 ≤ s.data.length) && s.data.all isHexChar

/-- Version selector of a docker image (`image.rs`, enum `Version`). -/
inductive Version where
  | any
  | sha256 (hash : String)
  | tag (t : String)
  deriving DecidableEq

/-- Embeds `Version::from_sha256`. -/
def Version.from_sha256 (hash : String) : Except String Version :=
  if sha256Matches hash then .ok (.sha256 hash)
  else .error ("invalid sha256 hash version: " ++ hash)

/-- Embeds `Version::from_tag`. -/
def Version.from_tag (t : String) : Except String Version :=
  if tagMatches t then .ok (.tag t)
  else .error ("invalid tag version: " ++ t)

/-- Embeds `BuildImageInstructions` (`image.rs`). -/
structure BuildImageInstructions where
  path : String
  deriving DecidableEq

/-- Embeds `DockerImage` (`image.rs`). -/
structure DockerImage where
  raw_name : String
  registry : Option String
  repository : String
  version : Version
  build_instructions : Option BuildImageInstructions
  deriving DecidableEq

/-- The registry recognition test of `DockerImage::from_str`, applied to the
segment left of the first `/`: it contains `.`, contains `:`, or contains
`"localhost"` as a substring. -/
def isRegistrySegment (reg : String) : Bool :=
  strHasSub reg "." || strHasSub reg ":" || strHasSub reg "localhost"

/-- First stage of `DockerImage::from_str`: split off the registry. -/
def splitRegistry (full : String) : Option String × String :=
  match strSplitOnce full "/" with
  | some (reg, rest) => if isRegistrySegment reg then (some reg, rest) else (none, full)
  | none => (none, full)

/-- Second stage of `DockerImage::from_str`: split the repository-and-version
segment into repository and version, trying `@sha256:` first and then the
first `:`. -/
def parseRepoVersion (rv : String) : Except String (String × Version) :=
  match strSplitOnce rv "@sha256:" with
  | some (repo, v) => (Version.from_sha256 v).map fun ver => (repo, ver)
  | none =>
    match strSplitOnce rv ":" with
    | some (repo, v) => (Version.from_tag v).map fun ver => (repo, ver)
    | none => .ok (rv, .any)

/-- Embeds `DockerImage::from_str` (`image.rs`). -/
def DockerImage.from_str (full : String) : Except String DockerImage :=
  match parseRepoVersion (splitRegistry full).2 with
  | .error e => .error e
  | .ok (repo, ver) =>
    if strHasSub repo "@" || strHasSub repo ":" then
      .error ("invalid repository name: " ++ repo)
    else
      .ok { raw_name := full, registry := (splitRegistry full).1, repository := repo,
            version := ver, build_instructions := none }

/-- Split a character list at the LAST occurrence of `sep`. -/
def splitOnceLastL (sep : List Char) : List Char → Option (List Char × List Char)
  | [] => if isPrefB sep [] then some ([], []) else none
  | c :: rest =>
    match splitOnceLastL sep rest with
    | some (a, b) => some (c :: a, b)
    | none =>
      if isPrefB sep (c :: rest) then some ([], (c :: rest).drop sep.length)
      else none

/-- Modelled from the spec: the variant of the second parsing stage that the
spec describes, splitting on the LAST `:` ("Otherwise split on the last `:`;
if present, the right side must match the tag pattern, else fail"), used only
for comparison against `parseRepoVersion`, which follows the source. -/
def parseRepoVersionSpecLastColon (rv : String) : Except String (String × Version) :=
  match strSplitOnce rv "@sha256:" with
  | some (repo, v) => (Version.from_sha256 v).map fun ver => (repo, ver)
  | none =>
    match (splitOnceLastL ":".data rv.data).map (fun p => ((⟨p.1⟩ : String), (⟨p.2⟩ : String))) with
    | some (repo, v) => (Version.from_tag v).map fun ver => (repo, ver)
    | none => .ok (rv, .any)

/-- Modelled from the spec: `from_str` with the spec's last-`:` split. -/
def fromStrSpecLastColon (full : String) : Except String DockerImage :=
  match parseRepoVersionSpecLastColon (splitRegistry full).2 with
  | .error e => .error e
  | .ok (repo, ver) =>
    if strHasSub repo "@" || strHasSub repo ":" then
      .error ("invalid repository name: " ++ repo)
    else
      .ok { raw_name := full, registry := (splitRegistry full).1, repository := repo,
            version := ver, build_instructions := none }

/-! ## Runtime errors and panics -/

/-- Shallow model of `docker_api::Error`: the `StringError` variant used by
the readiness loop, and a `fault` variant standing for transport/daemon
errors reported by the runtime. -/
inductive DockerError where
  | stringErr (msg : String)
  | fault (status : Nat) (msg : String)
  deriving DecidableEq

/-- The error built by `ReadyStrategy::wait` when the deadline is exceeded. -/
def readinessTimeoutErr : DockerError :=
  .stringErr "Container takes too much time to be ready"

/-- A Rust panic (`unwrap`/`expect` on a missing or malformed value),
modelled as an explicit error layer. -/
inductive Panic where
  | panic
  deriving DecidableEq

/-! ## Readiness-wait strategy (`src/container.rs`) -/

/-- The observable state of a container at one poll: the combined log text
and the inspected health status (`None` when no health data is reported). -/
structure ContainerObs where
  logs : String
  health : Option String
  deriving DecidableEq

/-- Embeds `ReadyStrategy` (`container.rs`); the compiled regular expression of
`LogMessageRegExp` is modelled as its matching predicate on the log text. -/
inductive ReadyStrategy where
  | logMessageRegExp (isMatch : String → Bool)
  | stateHealthy
  | none

/-- Whether the strategy is `ReadyStrategy::None` (ready without polling). -/
def ReadyStrategy.isNoWait : ReadyStrategy → Bool
  | .none => true
  | _ => false

/-- One poll of the readiness predicate, exactly as written in the loop body
of `ReadyStrategy::wait`: a log strategy is ready when the regular expression
matches the fetched logs; `StateHealthy` is ready when the inspected health
status is present and EQUAL TO the empty string (`health_state == ""`);
`None` is always ready. -/
def ReadyStrategy.isReady : ReadyStrategy → ContainerObs → Bool
  | .logMessageRegExp re, obs => re obs.logs
  | .stateHealthy, obs =>
    match obs.health with
    | some health_state => health_state == ""
    | Option.none => false
  | .none, _ => true

/-- Embeds `ReadyStrategy::wait` (`container.rs`).  Here `poll i` is the outcome of the
`i`-th query of the container's observable state (a transport error or an
observation); `fuel` is the number of further iterations the deadline still
allows after the current one (the source compares `Instant::now()` against
`start + timeout` after every unsuccessful poll).  Each iteration polls,
propagating a transport error via `?`; returns success when the predicate
holds; otherwise fails with `readinessTimeoutErr` once the deadline has
passed, and retries after a sleep otherwise. -/
def ReadyStrategy.wait (s : ReadyStrategy)
    (poll : Nat → Except DockerError ContainerObs) : Nat → Nat → Except DockerError Unit
  | i, 0 =>
    if s.isNoWait then .ok ()
    else
      match poll i with
      | .error e => .error e
      | .ok obs => if s.isReady obs then .ok () else .error readinessTimeoutErr
  | i, fuel + 1 =>
    if s.isNoWait then .ok ()
    else
      match poll i with
      | .error e => .error e
      | .ok obs =>
        if s.isReady obs then .ok () else ReadyStrategy.wait s poll (i + 1) fuel

/-! ## Port-mapping resolver and running state (`src/docker_client.rs`) -/

/-- A host binding `{host_ip, host_port}` of runtime inspection data. -/
structure PortBinding where
  host_ip : Option String
  host_port : Option String
  deriving DecidableEq

/-- Runtime network settings: an optional mapping from container-port-spec
to an optional list of host bindings (the `HashMap` is modelled as an
association list in iteration order). -/
structure NetworkSettings where
  ports : Option (List (String × Option (List PortBinding)))
  deriving DecidableEq

/-- The fields of `ContainerInspect200Response` the client reads. -/
structure ContainerInspect where
  id : Option String
  name : Option String
  network_settings : Option NetworkSettings
  deriving DecidableEq

/-- Rust `str::parse::<u16>` on the character list: optional leading `+`,
then at least one decimal digit, value below `2^16`; anything else fails. -/
def parseDigits (ds : List Char) : Option Nat :=
  if ds.isEmpty then Option.none
  else if ds.all Char.isDigit then
    let v := ds.foldl (fun a c => a * 10 + (c.toNat - '0'.toNat)) 0
    if v < 65536 then some v else Option.none
  else Option.none

/-- Rust `str::parse::<u16>`. -/
def parseU16 (s : String) : Option Nat :=
  match s.data with
  | '+' :: ds => parseDigits ds
  | ds => parseDigits ds

/-- The first `filter_map` stage of `RunningState::extract_port_mapping`,
per map entry: a `None` binding list is dropped, and each binding with both
`host_ip` and `host_port` present yields a `(spec, host_ip, host_port)`
triple. -/
def entryTriples (entry : String × Option (List PortBinding)) :
    List (String × String × String) :=
  match entry.2 with
  | Option.none => []
  | some host_ports =>
    host_ports.filterMap fun pb =>
      match pb.host_ip, pb.host_port with
      | some host_ip, some host_port => some (entry.1, host_ip, host_port)
      | _, _ => Option.none

/-- The second `filter_map` + `collect` stage of `extract_port_mapping`:
keep triples whose `host_ip` is `"0.0.0.0"` and parse their `host_port` with
an unchecked `unwrap` — a non-parsing port of a kept triple panics. -/
def collectWildcard : List (String × String × String) → Except Panic (List (String × Nat))
  | [] => .ok []
  | (spec, host_ip, host_port) :: rest =>
    if host_ip == "0.0.0.0" then
      match parseU16 host_port with
      | some p => (collectWildcard rest).map fun l => (spec, p) :: l
      | Option.none => .error .panic
    else collectWildcard rest

/-- Embeds `RunningState` (`docker_client.rs`); the `HashMap` of resolved ports is
modelled as the association list produced by `collect`, looked up with
last-insertion-wins semantics. -/
structure RunningState where
  id : String
  name : String
  ports : List (String × Nat)
  deriving DecidableEq

/-- Embeds `RunningState::extract_port_mapping`: absent network settings or absent
port data yields `None` (no mapping); otherwise flatten the per-entry
triples and keep the wildcard bindings. -/
def RunningState.extract_port_mapping (network_settings : Option NetworkSettings) :
    Except Panic (Option (List (String × Nat))) :=
  match network_settings with
  | Option.none => .ok Option.none
  | some settings =>
    match settings.ports with
    | Option.none => .ok Option.none
    | some ports => (collectWildcard (ports.flatMap entryTriples)).map some

/-- Embeds `impl From<ContainerInspect200Response> for RunningState`: resolve the
ports (an absent mapping becomes the empty one via `unwrap_or`), then read
`id` and `name` with `expect` (panicking when absent). -/
def RunningState.fromInspect (inspect : ContainerInspect) : Except Panic RunningState :=
  match RunningState.extract_port_mapping inspect.network_settings with
  | .error p => .error p
  | .ok pm =>
    match inspect.id, inspect.name with
    | some id, some name => .ok { id := id, name := name, ports := pm.getD [] }
    | _, _ => .error .panic

/-- Embeds `HashMap::get` on the collected port list: the value of the last
inserted pair with the given key. -/
def portsLookup : List (String × Nat) → String → Option Nat
  | [], _ => Option.none
  | (k, v) :: rest, spec =>
    match portsLookup rest spec with
    | some r => some r
    | Option.none => if k == spec then some v else Option.none

/-- Whether a flattened triple is a wildcard binding whose `host_port` does
not parse as a `u16` — exactly the triples on which `collectWildcard`
panics. -/
def badWildcardTriple (t : String × String × String) : Bool :=
  t.2.1 == "0.0.0.0" && (parseU16 t.2.2).isNone

/-- Whether some flattened triple of the port data panics the resolver. -/
def hasBadWildcard (l : List (String × String × String)) : Bool :=
  l.any badWildcardTriple

/-- The per-triple filter the spec (§4.5) describes: keep a triple when its
`host_ip` is the wildcard address, taking the parsed host port. -/
def specKeepTriple (t : String × String × String) : Option (String × Nat) :=
  if t.2.1 == "0.0.0.0" then (parseU16 t.2.2).map fun p => (t.1, p) else Option.none

/-- Modelled from the spec (§4.5): the resolved mapping keeps, per
container-port-spec, the host ports of the bindings whose `host_ip` is
`"0.0.0.0"`, dropping bindings with any other IP or missing fields.  Used to
compare the source's resolver against the spec's words. -/
def wildcardPortsSpec (ports : List (String × Option (List PortBinding))) :
    List (String × Nat) :=
  (ports.flatMap entryTriples).filterMap specKeepTriple

/-! ## Container lifecycle client (`src/docker_client.rs`, `src/container.rs`) -/

/-- The outcome of a lifecycle client call: success, a propagated runtime
error, or an unwinding panic. -/
inductive Outcome where
  | ok
  | err (e : DockerError)
  | panicked (p : Panic)
  deriving DecidableEq

/-- Embeds `ContainerClient::start_and_wait`: runtime start (`?`), readiness wait
(`?`), then under the write lock inspect (`?`), convert the inspection into
a `RunningState` (which may panic) and publish it into the slot.  The
outcomes of the runtime start and inspect calls are explicit inputs; the
slot before the call is `st` and the returned pair is (call outcome, slot
after the call). -/
def ContainerClient.start_and_wait (startRes : Except DockerError Unit)
    (s : ReadyStrategy) (poll : Nat → Except DockerError ContainerObs) (fuel : Nat)
    (inspectRes : Except DockerError ContainerInspect)
    (st : Option RunningState) : Outcome × Option RunningState :=
  match startRes with
  | .error e => (.err e, st)
  | .ok _ =>
    match s.wait poll 0 fuel with
    | .error e => (.err e, st)
    | .ok _ =>
      match inspectRes with
      | .error e => (.err e, st)
      | .ok inspect =>
        match RunningState.fromInspect inspect with
        | .error p => (.panicked p, st)
        | .ok rs => (.ok, some rs)

/-- Embeds `ContainerClient::stop`: issue the runtime stop call (its outcome is the
input `r`); on error the `?` propagates it with the slot untouched; on
success clear the slot. -/
def ContainerClient.stop (r : Except DockerError Unit) (st : Option RunningState) :
    Except DockerError Unit × Option RunningState :=
  match r with
  | .error e => (.error e, st)
  | .ok _ => (.ok (), Option.none)

/-- Embeds `ContainerClient::kill`: same control flow as `stop`, with the runtime
call issued with signal `SIGKILL`. -/
def ContainerClient.kill (r : Except DockerError Unit) (st : Option RunningState) :
    Except DockerError Unit × Option RunningState :=
  match r with
  | .error e => (.error e, st)
  | .ok _ => (.ok (), Option.none)

/-- Embeds `GenericContainer::get_host_port`: read the slot; an absent state yields
no mapping, otherwise look the port spec up in the resolved ports. -/
def GenericContainer.get_host_port (st : Option RunningState)
    (container_port_spec : String) : Option Nat :=
  match st with
  | Option.none => Option.none
  | some rs => portsLookup rs.ports container_port_spec

/-! ## Helper lemmas about the string utilities -/

theorem isPrefB_append {p l : List Char} (h : isPrefB p l = true) :
    l = p ++ l.drop p.length := by
  induction p generalizing l with
  | nil => simp
  | cons a as ih =>
    cases l with
    | nil => simp [isPrefB] at h
    | cons b bs =>
      simp only [isPrefB, Bool.and_eq_true, beq_iff_eq] at h
      simpa [h.1] using ih h.2

theorem splitOnceL_append {sep l a b : List Char}
    (h : splitOnceL sep l = some (a, b)) : l = a ++ sep ++ b := by
  induction l generalizing a with
  | nil =>
    simp only [splitOnceL] at h
    split at h
    · rename_i hp
      cases h
      cases sep with
      | nil => rfl
      | cons x xs => simp [isPrefB] at hp
    · exact absurd h (by simp)
  | cons c rest ih =>
    simp only [splitOnceL] at h
    split at h
    · rename_i hp
      cases h
      simpa using isPrefB_append hp
    · revert h
      cases hs : splitOnceL sep rest with
      | none => intro h; exact absurd h (by simp)
      | some p =>
        intro h
        obtain ⟨a', b'⟩ := p
        cases h
        simpa using ih hs

theorem splitOnceL_single_left_clean {c : Char} {l a b : List Char}
    (h : splitOnceL [c] l = some (a, b)) : splitOnceL [c] a = none := by
  induction l generalizing a with
  | nil =>
    simp [splitOnceL, isPrefB] at h
  | cons d rest ih =>
    simp only [splitOnceL] at h
    split at h
    · cases h
      simp [splitOnceL, isPrefB]
    · rename_i hp
      have hcd : (c == d) = false := by
        by_cases hcd : (c == d) = true
        · exact absurd (by simp [isPrefB, hcd]) hp
        · simpa using hcd
      revert h
      cases hs : splitOnceL [c] rest with
      | none => intro h; exact absurd h (by simp)
      | some p =>
        intro h
        obtain ⟨a', b'⟩ := p
        cases h
        simp [splitOnceL, isPrefB, hcd, ih hs]

theorem strHasSub_false_split {s sub : String} (h : strHasSub s sub = false) :
    splitOnceL sub.data s.data = none := by
  unfold strHasSub at h
  cases hs : splitOnceL sub.data s.data with
  | none => rfl
  | some p => rw [hs] at h; simp at h

theorem strHasSub_true_split {s sub : String} (h : strHasSub s sub = true) :
    ∃ p, splitOnceL sub.data s.data = some p := by
  unfold strHasSub at h
  cases hs : splitOnceL sub.data s.data with
  | none => rw [hs] at h; simp at h
  | some p => exact ⟨p, rfl⟩

theorem splitRegistry_eq_pos {s l r : String} (h : strSplitOnce s "/" = some (l, r))
    (hreg : isRegistrySegment l = true) : splitRegistry s = (some l, r) := by
  unfold splitRegistry
  rw [h]
  simp [hreg]

theorem splitRegistry_eq_neg {s l r : String} (h : strSplitOnce s "/" = some (l, r))
    (hreg : isRegistrySegment l = false) : splitRegistry s = (Option.none, s) := by
  unfold splitRegistry
  rw [h]
  simp [hreg]

/-! ## Claim theorems: image reference parser -/

/-- Claim C9: for every input string on which `from_str` succeeds, the
`repository` field of the resulting image reference contains neither `@`
nor `:`. -/
theorem from_str_repository_clean (s : String) (img : DockerImage)
    (h : DockerImage.from_str s = .ok img) :
    strHasSub img.repository "@" = false ∧ strHasSub img.repository ":" = false := by
  unfold DockerImage.from_str at h
  rcases hq : parseRepoVersion (splitRegistry s).2 with e | ⟨repo, ver⟩ <;>
    rw [hq] at h <;> dsimp only at h
  · exact absurd h (by simp)
  · by_cases hg : (strHasSub repo "@" || strHasSub repo ":") = true
    · rw [if_pos hg] at h
      exact absurd h (by simp)
    · rw [if_neg hg] at h
      cases h
      simp only [Bool.or_eq_true, not_or, Bool.not_eq_true] at hg
      exact ⟨hg.1, hg.2⟩

/-- Claim C9, witness: a concrete successful parse whose repository is free
of `@` and `:`. -/
theorem from_str_repository_clean_witness :
    DockerImage.from_str "myname:latest" =
      .ok ⟨"myname:latest", Option.none, "myname", .tag "latest", Option.none⟩ ∧
    strHasSub "myname" "@" = false ∧ strHasSub "myname" ":" = false :=
  ⟨rfl, from_str_repository_clean "myname:latest"
    ⟨"myname:latest", Option.none, "myname", .tag "latest", Option.none⟩ rfl⟩

/-- Claim C8, counterexample: the left segment of `"xlocalhost/foo"` has no
`.`, no `:`, and neither equals nor starts with `"localhost"`, so the claim
says it is not a registry; yet `from_str` treats it as one, because the
source tests `contains("localhost")` (substring), not equals/starts-with. -/
theorem registry_localhost_counterexample :
    DockerImage.from_str "xlocalhost/foo" =
      .ok ⟨"xlocalhost/foo", some "xlocalhost", "foo", .any, Option.none⟩ ∧
    strHasSub "xlocalhost" "." = false ∧
    strHasSub "xlocalhost" ":" = false ∧
    strStartsWith "xlocalhost" "localhost" = false ∧
    ("xlocalhost" : String) ≠ "localhost" ∧
    some ("xlocalhost" : String) ≠ Option.none := by
  exact ⟨rfl, rfl, rfl, rfl, by decide, by simp⟩

/-- Claim C8 (amended): for every input containing a `/`, the segment left
of the first `/` is treated as a registry exactly when it contains `.`,
contains `:`, or contains `"localhost"` as a substring; otherwise the whole
string is the repository-and-version segment and the registry is `None`. -/
theorem registry_detection (s left rest : String) (img : DockerImage)
    (hsplit : strSplitOnce s "/" = some (left, rest))
    (hok : DockerImage.from_str s = .ok img) :
    img.registry =
      (if strHasSub left "." || strHasSub left ":" || strHasSub left "localhost"
       then some left else Option.none) ∧
    parseRepoVersion
      (if strHasSub left "." || strHasSub left ":" || strHasSub left "localhost"
       then rest else s) = .ok (img.repository, img.version) := by
  unfold DockerImage.from_str at hok
  cases hreg : isRegistrySegment left with
  | true =>
    rw [splitRegistry_eq_pos hsplit hreg] at hok
    have hreg' : (strHasSub left "." || strHasSub left ":" || strHasSub left "localhost")
        = true := hreg
    rw [hreg']
    simp only [if_true]
    rcases hq : parseRepoVersion rest with e | ⟨repo, ver⟩ <;>
      rw [hq] at hok <;> dsimp only at hok
    · exact absurd hok (by simp)
    · by_cases hg : (strHasSub repo "@" || strHasSub repo ":") = true
      · rw [if_pos hg] at hok
        exact absurd hok (by simp)
      · rw [if_neg hg] at hok
        cases hok
        exact ⟨rfl, rfl⟩
  | false =>
    rw [splitRegistry_eq_neg hsplit hreg] at hok
    have hreg' : (strHasSub left "." || strHasSub left ":" || strHasSub left "localhost")
        = false := hreg
    rw [hreg']
    simp only [Bool.false_eq_true, if_false]
    rcases hq : parseRepoVersion s with e | ⟨repo, ver⟩ <;>
      rw [hq] at hok <;> dsimp only at hok
    · exact absurd hok (by simp)
    · by_cases hg : (strHasSub repo "@" || strHasSub repo ":") = true
      · rw [if_pos hg] at hok
        exact absurd hok (by simp)
      · rw [if_neg hg] at hok
        cases hok
        exact ⟨rfl, rfl⟩

/-- Claim C8 (amended), witness: a registry segment with a port is
recognized because it contains `:`. -/
theorem registry_detection_witness :
    strSplitOnce "registry.foo.com:1234/my-name:1.0" "/" =
      some ("registry.foo.com:1234", "my-name:1.0") ∧
    DockerImage.from_str "registry.foo.com:1234/my-name:1.0" =
      .ok ⟨"registry.foo.com:1234/my-name:1.0", some "registry.foo.com:1234",
           "my-name", .tag "1.0", Option.none⟩ ∧
    (⟨"registry.foo.com:1234/my-name:1.0", some "registry.foo.com:1234",
      "my-name", .tag "1.0", Option.none⟩ : DockerImage).registry =
      some "registry.foo.com:1234" ∧
    parseRepoVersion "my-name:1.0" = .ok ("my-name", .tag "1.0") :=
  ⟨rfl, rfl,
    (registry_detection "registry.foo.com:1234/my-name:1.0" "registry.foo.com:1234"
      "my-name:1.0" _ rfl rfl).1,
    (registry_detection "registry.foo.com:1234/my-name:1.0" "registry.foo.com:1234"
      "my-name:1.0" _ rfl rfl).2⟩

/-- Claim C3, counterexample: on `"repo:rust:invalid"` the source splits on
the FIRST `:`, so it fails with tag candidate `"rust:invalid"`, even though
the text after the LAST `:` (`"invalid"`) matches the tag pattern; the
spec-modelled last-`:` parser fails differently (invalid repository), so the
claimed last-`:` split contradicts the code. -/
theorem parse_last_colon_counterexample :
    DockerImage.from_str "repo:rust:invalid" = .error "invalid tag version: rust:invalid" ∧
    tagMatches "invalid" = true ∧
    fromStrSpecLastColon "repo:rust:invalid" =
      .error "invalid repository name: repo:rust" ∧
    DockerImage.from_str "repo:rust:invalid" ≠
      fromStrSpecLastColon "repo:rust:invalid" := by
  refine ⟨rfl, rfl, rfl, ?_⟩
  intro h
  rw [show DockerImage.from_str "repo:rust:invalid"
        = .error "invalid tag version: rust:invalid" from rfl,
      show fromStrSpecLastColon "repo:rust:invalid"
        = .error "invalid repository name: repo:rust" from rfl] at h
  exact absurd (Except.error.inj h) (by decide)

/-- Claim C3 (amended): for every repository-and-version segment with no
`@sha256:` but at least one `:`, the parser splits on the FIRST `:` —
everything before the first `:` (which therefore contains no `:`) is the
candidate repository and everything after it must match the tag pattern,
else parsing fails with the invalid-version condition. -/
theorem parse_version_first_colon (rv : String)
    (hsha : strHasSub rv "@sha256:" = false)
    (hcolon : strHasSub rv ":" = true) :
    ∃ repo v : String, rv = repo ++ ":" ++ v ∧ strHasSub repo ":" = false ∧
      parseRepoVersion rv =
        (if tagMatches v then .ok (repo, .tag v)
         else .error ("invalid tag version: " ++ v)) := by
  obtain ⟨⟨a, b⟩, hsplit⟩ := strHasSub_true_split hcolon
  have hsplit' : splitOnceL [':'] rv.data = some (a, b) := hsplit
  refine ⟨⟨a⟩, ⟨b⟩, ?_, ?_, ?_⟩
  · have hd : rv.data = a ++ (":".data) ++ b := splitOnceL_append hsplit
    show rv = ⟨a⟩ ++ ⟨":".data⟩ ++ ⟨b⟩
    have hrv : rv = (⟨rv.data⟩ : String) := rfl
    rw [hrv, hd]
    rfl
  · show (splitOnceL (":".data) a).isSome = false
    have hnone : splitOnceL [':'] a = Option.none := splitOnceL_single_left_clean hsplit'
    have : splitOnceL (":".data) a = Option.none := hnone
    rw [this]
    rfl
  · unfold parseRepoVersion
    rw [show strSplitOnce rv "@sha256:" = Option.none by
          simp [strSplitOnce, strHasSub_false_split hsha],
        show strSplitOnce rv ":" = some (⟨a⟩, ⟨b⟩) by simp [strSplitOnce, hsplit]]
    unfold Version.from_tag
    by_cases ht : tagMatches ⟨b⟩ <;> simp [ht, Except.map]

/-- Claim C3 (amended), witness: a concrete single-`:` segment. -/
theorem parse_version_first_colon_witness :
    strHasSub "myname:latest" "@sha256:" = false ∧
    strHasSub "myname:latest" ":" = true ∧
    (∃ repo v : String, "myname:latest" = repo ++ ":" ++ v ∧
      strHasSub repo ":" = false ∧
      parseRepoVersion "myname:latest" =
        (if tagMatches v then .ok (repo, .tag v)
         else .error ("invalid tag version: " ++ v))) :=
  ⟨rfl, rfl, parse_version_first_colon "myname:latest" rfl rfl⟩

/-! ## Claim theorems: readiness-wait strategy -/

/-- Claim C1 (code bug): the `StateHealthy` poll of the source is ready
exactly when the inspected health status is present and EMPTY
(`health_state == ""`), so a non-empty status such as `"healthy"` or
`"unhealthy"` — which the claim says must report ready — is never ready,
and a wait polling a container that reports `"healthy"` times out. -/
theorem stateHealthy_ready_only_on_empty_status :
    ReadyStrategy.isReady .stateHealthy ⟨"", some "healthy"⟩ = false ∧
    ReadyStrategy.isReady .stateHealthy ⟨"", some "unhealthy"⟩ = false ∧
    ReadyStrategy.isReady .stateHealthy ⟨"", some ""⟩ = true ∧
    ReadyStrategy.isReady .stateHealthy ⟨"", Option.none⟩ = false ∧
    ReadyStrategy.wait .stateHealthy (fun _ => .ok ⟨"", some "healthy"⟩) 0 3
      = .error readinessTimeoutErr :=
  ⟨rfl, rfl, rfl, rfl, rfl⟩

/-- Claim C2, counterexample: when the runtime stop call returns an error,
`stop` and `kill` leave the `RunningState` slot untouched (the `?` operator
returns before the clearing assignment), so the slot is NOT cleared
unconditionally. -/
theorem stop_error_keeps_state_counterexample :
    (ContainerClient.stop (.error (.fault 500 "server error"))
        (some ⟨"cid", "/cname", []⟩)).2 = some ⟨"cid", "/cname", []⟩ ∧
    (ContainerClient.kill (.error (.fault 500 "server error"))
        (some ⟨"cid", "/cname", []⟩)).2 = some ⟨"cid", "/cname", []⟩ ∧
    some (⟨"cid", "/cname", []⟩ : RunningState) ≠ Option.none :=
  ⟨rfl, rfl, by simp⟩

/-- Claim C2 (amended): `stop()` and `kill()` clear the shared
`RunningState` slot exactly when the runtime stop call succeeds; when it
returns an error, the error propagates and the slot is left unchanged. -/
theorem stop_kill_clear_state_iff_runtime_ok (r : Except DockerError Unit)
    (st : Option RunningState) :
    ContainerClient.stop r st =
      (r, match r with | .ok _ => Option.none | .error _ => st) ∧
    ContainerClient.kill r st =
      (r, match r with | .ok _ => Option.none | .error _ => st) := by
  cases r <;> exact ⟨rfl, rfl⟩

/-- Claim C4: when every poll the deadline allows returns an observation
failing the readiness predicate, the wait fails with exactly the
readiness-timeout error, which is distinct from every transport fault; a
transport error from the underlying query propagates immediately and
unchanged, however much deadline budget remains. -/
theorem wait_timeout_distinct_and_propagates :
    (∀ (s : ReadyStrategy) (poll : Nat → Except DockerError ContainerObs) (i fuel : Nat),
      (∀ j, j ≤ fuel → ∃ obs, poll (i + j) = .ok obs ∧ s.isReady obs = false) →
      s.wait poll i fuel = .error readinessTimeoutErr) ∧
    (∀ (s : ReadyStrategy) (poll : Nat → Except DockerError ContainerObs) (i fuel : Nat)
      (e : DockerError), s.isNoWait = false → poll i = .error e →
      s.wait poll i fuel = .error e) ∧
    (∀ status msg, readinessTimeoutErr ≠ DockerError.fault status msg) := by
  refine ⟨?_, ?_, ?_⟩
  · intro s poll i fuel
    induction fuel generalizing i with
    | zero =>
      intro h
      obtain ⟨obs, hok, hnr⟩ := h 0 (Nat.le_refl 0)
      rw [Nat.add_zero] at hok
      have hnw : s.isNoWait = false := by
        cases s with
        | none => simp [ReadyStrategy.isReady] at hnr
        | logMessageRegExp re => rfl
        | stateHealthy => rfl
      simp [ReadyStrategy.wait, hnw, hok, hnr]
    | succ f ih =>
      intro h
      obtain ⟨obs, hok, hnr⟩ := h 0 (Nat.zero_le _)
      rw [Nat.add_zero] at hok
      have hnw : s.isNoWait = false := by
        cases s with
        | none => simp [ReadyStrategy.isReady] at hnr
        | logMessageRegExp re => rfl
        | stateHealthy => rfl
      have hrest : ∀ j, j ≤ f →
          ∃ obs, poll (i + 1 + j) = .ok obs ∧ s.isReady obs = false := by
        intro j hj
        obtain ⟨o, h1, h2⟩ := h (j + 1) (Nat.succ_le_succ hj)
        refine ⟨o, ?_, h2⟩
        rwa [show i + (j + 1) = i + 1 + j by omega] at h1
      simp [ReadyStrategy.wait, hnw, hok, hnr, ih (i + 1) hrest]
  · intro s poll i fuel e hnw herr
    cases fuel with
    | zero => simp [ReadyStrategy.wait, hnw, herr]
    | succ f => simp [ReadyStrategy.wait, hnw, herr]
  · intro status msg h
    simp [readinessTimeoutErr] at h

/-- Claim C4, witness: a health-check wait over a container that keeps
reporting status `"starting"` times out with the dedicated error, and a
transport fault on the first poll propagates unchanged. -/
theorem wait_timeout_distinct_and_propagates_witness :
    ReadyStrategy.isNoWait .stateHealthy = false ∧
    ReadyStrategy.wait .stateHealthy (fun _ => .ok ⟨"", some "starting"⟩) 0 2
      = .error readinessTimeoutErr ∧
    ReadyStrategy.wait .stateHealthy (fun _ => .error (.fault 500 "boom")) 0 5
      = .error (.fault 500 "boom") :=
  ⟨rfl,
   wait_timeout_distinct_and_propagates.1 .stateHealthy _ 0 2
     (fun _ _ => ⟨⟨"", some "starting"⟩, rfl, rfl⟩),
   wait_timeout_distinct_and_propagates.2.1 .stateHealthy _ 0 5 (.fault 500 "boom") rfl rfl⟩

/-! ## Claim theorems: lifecycle client -/

/-- Claim C5: `start_and_wait` publishes a `RunningState` into the slot only
when the runtime start, the readiness wait and the inspection (including its
conversion) all succeed; on any failure the slot stays unset and the error
propagates to the caller. -/
theorem start_publishes_only_on_success (s : ReadyStrategy)
    (poll : Nat → Except DockerError ContainerObs) (fuel : Nat)
    (ir : Except DockerError ContainerInspect) :
    (∀ e, ContainerClient.start_and_wait (.error e) s poll fuel ir Option.none
        = (.err e, Option.none)) ∧
    (∀ e, s.wait poll 0 fuel = .error e →
      ContainerClient.start_and_wait (.ok ()) s poll fuel ir Option.none
        = (.err e, Option.none)) ∧
    (∀ e, s.wait poll 0 fuel = .ok () →
      ContainerClient.start_and_wait (.ok ()) s poll fuel (.error e) Option.none
        = (.err e, Option.none)) ∧
    (∀ i rs, s.wait poll 0 fuel = .ok () → RunningState.fromInspect i = .ok rs →
      ContainerClient.start_and_wait (.ok ()) s poll fuel (.ok i) Option.none
        = (.ok, some rs)) ∧
    (∀ sr st2,
      (ContainerClient.start_and_wait sr s poll fuel ir Option.none).2 = some st2 →
      sr = .ok () ∧ s.wait poll 0 fuel = .ok () ∧
        ∃ i, ir = .ok i ∧ RunningState.fromInspect i = .ok st2) := by
  refine ⟨?_, ?_, ?_, ?_, ?_⟩
  · intro e
    rfl
  · intro e hw
    unfold ContainerClient.start_and_wait
    rw [hw]
  · intro e hw
    unfold ContainerClient.start_and_wait
    rw [hw]
  · intro i rs hw hconv
    unfold ContainerClient.start_and_wait
    rw [hw]
    dsimp only
    rw [hconv]
  · intro sr st2 hpub
    unfold ContainerClient.start_and_wait at hpub
    rcases sr with e | u
    · exact absurd hpub (by simp)
    · dsimp only at hpub
      rcases hw : s.wait poll 0 fuel with e | u' <;> rw [hw] at hpub <;>
        dsimp only at hpub
      · exact absurd hpub (by simp)
      · rcases hir : ir with e | i <;> rw [hir] at hpub <;> dsimp only at hpub
        · exact absurd hpub (by simp)
        · rcases hconv : RunningState.fromInspect i with p | rs <;>
            rw [hconv] at hpub <;> dsimp only at hpub
          · exact absurd hpub (by simp)
          · refine ⟨rfl, rfl, i, rfl, ?_⟩
            rw [hconv]
            simpa using hpub

/-- Claim C5, witness: a concrete successful start with strategy `None`
publishes the converted inspection state. -/
theorem start_publishes_only_on_success_witness :
    (ReadyStrategy.none).wait (fun _ => .ok ⟨"", Option.none⟩) 0 0 = .ok () ∧
    RunningState.fromInspect ⟨some "cid", some "/cname", Option.none⟩
      = .ok ⟨"cid", "/cname", []⟩ ∧
    ContainerClient.start_and_wait (.ok ()) ReadyStrategy.none
        (fun _ => .ok ⟨"", Option.none⟩) 0
        (.ok ⟨some "cid", some "/cname", Option.none⟩) Option.none
      = (.ok, some ⟨"cid", "/cname", []⟩) :=
  ⟨rfl, rfl,
   (start_publishes_only_on_success ReadyStrategy.none
      (fun _ => .ok ⟨"", Option.none⟩) 0
      (.ok ⟨some "cid", some "/cname", Option.none⟩)).2.2.2.1
     ⟨some "cid", some "/cname", Option.none⟩ ⟨"cid", "/cname", []⟩ rfl rfl⟩

/-- Claim C6: `get_host_port` is a pure read of the current state: it
returns no mapping when the state is absent or the port spec has no entry;
after a successful start it returns the resolved host port of the published
state, and after a successful stop it returns no mapping for every port. -/
theorem get_host_port_reads_running_state :
    (∀ spec, GenericContainer.get_host_port Option.none spec = Option.none) ∧
    (∀ rs spec, portsLookup rs.ports spec = Option.none →
      GenericContainer.get_host_port (some rs) spec = Option.none) ∧
    (∀ (s : ReadyStrategy) (poll : Nat → Except DockerError ContainerObs) (fuel : Nat)
      (i : ContainerInspect) (rs : RunningState) (spec : String) (p : Nat),
      s.wait poll 0 fuel = .ok () → RunningState.fromInspect i = .ok rs →
      portsLookup rs.ports spec = some p →
      GenericContainer.get_host_port
        (ContainerClient.start_and_wait (.ok ()) s poll fuel (.ok i) Option.none).2 spec
        = some p) ∧
    (∀ st spec,
      GenericContainer.get_host_port (ContainerClient.stop (.ok ()) st).2 spec
        = Option.none) := by
  refine ⟨fun _ => rfl, ?_, ?_, fun _ _ => rfl⟩
  · intro rs spec hl
    unfold GenericContainer.get_host_port
    exact hl
  · intro s poll fuel i rs spec p hw hconv hl
    unfold ContainerClient.start_and_wait
    rw [hw]
    dsimp only
    rw [hconv]
    dsimp only
    unfold GenericContainer.get_host_port
    exact hl

/-- Claim C6, witness: a start that resolves `"5432/tcp"` to host port
`49153` makes `get_host_port` return it, and after a successful stop every
lookup returns no mapping. -/
theorem get_host_port_reads_running_state_witness :
    (ReadyStrategy.none).wait (fun _ => .ok ⟨"", Option.none⟩) 0 0 = .ok () ∧
    RunningState.fromInspect
        ⟨some "cid", some "/db",
         some ⟨some [("5432/tcp", some [⟨some "0.0.0.0", some "49153"⟩])]⟩⟩
      = .ok ⟨"cid", "/db", [("5432/tcp", 49153)]⟩ ∧
    portsLookup [("5432/tcp", 49153)] "5432/tcp" = some 49153 ∧
    GenericContainer.get_host_port
        (ContainerClient.start_and_wait (.ok ()) ReadyStrategy.none
          (fun _ => .ok ⟨"", Option.none⟩) 0
          (.ok ⟨some "cid", some "/db",
            some ⟨some [("5432/tcp", some [⟨some "0.0.0.0", some "49153"⟩])]⟩⟩)
          Option.none).2 "5432/tcp"
      = some 49153 ∧
    GenericContainer.get_host_port
        (ContainerClient.stop (.ok ())
          (some ⟨"cid", "/db", [("5432/tcp", 49153)]⟩)).2 "5432/tcp"
      = Option.none :=
  ⟨rfl, rfl, rfl,
   get_host_port_reads_running_state.2.2.1 ReadyStrategy.none
     (fun _ => .ok ⟨"", Option.none⟩) 0
     ⟨some "cid", some "/db",
      some ⟨some [("5432/tcp", some [⟨some "0.0.0.0", some "49153"⟩])]⟩⟩
     ⟨"cid", "/db", [("5432/tcp", 49153)]⟩ "5432/tcp" 49153 rfl rfl rfl,
   get_host_port_reads_running_state.2.2.2
     (some ⟨"cid", "/db", [("5432/tcp", 49153)]⟩) "5432/tcp"⟩

/-! ## Helper lemmas about the port-mapping resolver -/

theorem collectWildcard_ok {l : List (String × String × String)}
    (h : hasBadWildcard l = false) :
    collectWildcard l = .ok (l.filterMap specKeepTriple) := by
  induction l with
  | nil => rfl
  | cons t rest ih =>
    obtain ⟨spec, ip, hp⟩ := t
    have h1 : badWildcardTriple (spec, ip, hp) = false := by
      cases hbt : badWildcardTriple (spec, ip, hp) with
      | false => rfl
      | true =>
        rw [hasBadWildcard, List.any_cons, hbt] at h
        simp at h
    have h2 : hasBadWildcard rest = false := by
      cases hbr : rest.any badWildcardTriple with
      | false => exact hbr
      | true =>
        rw [hasBadWildcard, List.any_cons, hbr] at h
        simp at h
    by_cases hip : (ip == "0.0.0.0") = true
    · have hps : ∃ p, parseU16 hp = some p := by
        cases hp16 : parseU16 hp with
        | none =>
          rw [badWildcardTriple] at h1
          dsimp only at h1
          rw [hip, hp16] at h1
          simp at h1
        | some p => exact ⟨p, rfl⟩
      obtain ⟨p, hps⟩ := hps
      simp [collectWildcard, hip, hps, ih h2, specKeepTriple, Except.map]
    · have hip' : (ip == "0.0.0.0") = false := by simpa using hip
      simp [collectWildcard, hip', ih h2, specKeepTriple]

theorem collectWildcard_panics {l : List (String × String × String)}
    (h : hasBadWildcard l = true) :
    collectWildcard l = .error .panic := by
  induction l with
  | nil => simp [hasBadWildcard] at h
  | cons t rest ih =>
    obtain ⟨spec, ip, hp⟩ := t
    by_cases hbt : badWildcardTriple (spec, ip, hp) = true
    · have hip : (ip == "0.0.0.0") = true ∧ (parseU16 hp).isNone = true := by
        simpa [badWildcardTriple] using hbt
      have hnone : parseU16 hp = Option.none := by
        cases hp16 : parseU16 hp with
        | none => rfl
        | some p =>
          rw [hp16] at hip
          simp at hip
      simp [collectWildcard, hip.1, hnone]
    · have hrest : hasBadWildcard rest = true := by
        rw [hasBadWildcard, List.any_cons] at h
        have hbt' : badWildcardTriple (spec, ip, hp) = false := by simpa using hbt
        rw [hbt'] at h
        rw [hasBadWildcard]
        simpa using h
      by_cases hip : (ip == "0.0.0.0") = true
      · cases hp16 : parseU16 hp with
        | none => simp [collectWildcard, hip, hp16]
        | some p => simp [collectWildcard, hip, hp16, ih hrest, Except.map]
      · have hip' : (ip == "0.0.0.0") = false := by simpa using hip
        simp [collectWildcard, hip', ih hrest]

/-! ## Claim theorems: port-mapping resolver -/

/-- Claim C7: the resolver keeps, per container-port-spec, exactly the host
bindings whose `host_ip` is the wildcard `"0.0.0.0"` (bindings with another
IP or a missing field are dropped, as the spec-worded `wildcardPortsSpec`
states), provided no kept binding panics the unchecked parse; and absent
network settings or absent port data yield an empty mapping, not an error. -/
theorem extract_port_mapping_wildcard_only :
    (RunningState.extract_port_mapping Option.none = .ok Option.none) ∧
    (RunningState.extract_port_mapping (some ⟨Option.none⟩) = .ok Option.none) ∧
    (∀ id name, RunningState.fromInspect ⟨some id, some name, Option.none⟩
      = .ok ⟨id, name, []⟩) ∧
    (∀ ports, hasBadWildcard (ports.flatMap entryTriples) = false →
      RunningState.extract_port_mapping (some ⟨some ports⟩)
        = .ok (some (wildcardPortsSpec ports))) := by
  refine ⟨rfl, rfl, fun id name => rfl, ?_⟩
  intro ports h
  unfold RunningState.extract_port_mapping
  dsimp only
  rw [collectWildcard_ok h]
  rfl

/-- Claim C7, witness: the spec's example — one spec bound to
`{0.0.0.0, 55000}` and another bound only to `{127.0.0.1, 55001}` resolve
to a mapping containing only the first. -/
theorem extract_port_mapping_wildcard_only_witness :
    hasBadWildcard
      (([("5432/tcp", some [⟨some "0.0.0.0", some "55000"⟩]),
         ("9000/tcp", some [⟨some "127.0.0.1", some "55001"⟩])] :
        List (String × Option (List PortBinding))).flatMap entryTriples) = false ∧
    RunningState.extract_port_mapping
        (some ⟨some [("5432/tcp", some [⟨some "0.0.0.0", some "55000"⟩]),
                     ("9000/tcp", some [⟨some "127.0.0.1", some "55001"⟩])]⟩)
      = .ok (some [("5432/tcp", 55000)]) :=
  ⟨rfl,
   (extract_port_mapping_wildcard_only.2.2.2
     [("5432/tcp", some [⟨some "0.0.0.0", some "55000"⟩]),
      ("9000/tcp", some [⟨some "127.0.0.1", some "55001"⟩])] rfl).trans rfl⟩

/-- Claim C10: the resolver is total only under a precondition — it panics
(rather than dropping the binding or reporting a runtime error) as soon as
some wildcard binding carries a host port that does not parse as a `u16`,
and under the precondition that every wildcard binding's host port parses,
the panic branch is unreachable and a mapping is produced. -/
theorem extract_port_mapping_panic_iff_bad_parse :
    (∀ ports, hasBadWildcard (ports.flatMap entryTriples) = true →
      RunningState.extract_port_mapping (some ⟨some ports⟩) = .error .panic) ∧
    (∀ ports, hasBadWildcard (ports.flatMap entryTriples) = false →
      ∃ m, RunningState.extract_port_mapping (some ⟨some ports⟩) = .ok m) := by
  constructor
  · intro ports h
    unfold RunningState.extract_port_mapping
    dsimp only
    rw [collectWildcard_panics h]
    rfl
  · intro ports h
    refine ⟨some (wildcardPortsSpec ports), ?_⟩
    unfold RunningState.extract_port_mapping
    dsimp only
    rw [collectWildcard_ok h]
    rfl

/-- Claim C10, witness: a wildcard binding with host port `"notaport"`
panics the resolver, while a parseable one yields a mapping. -/
theorem extract_port_mapping_panic_iff_bad_parse_witness :
    hasBadWildcard
      (([("8080/tcp", some [⟨some "0.0.0.0", some "notaport"⟩])] :
        List (String × Option (List PortBinding))).flatMap entryTriples) = true ∧
    RunningState.extract_port_mapping
        (some ⟨some [("8080/tcp", some [⟨some "0.0.0.0", some "notaport"⟩])]⟩)
      = .error .panic ∧
    hasBadWildcard
      (([("8080/tcp", some [⟨some "0.0.0.0", some "8081"⟩])] :
        List (String × Option (List PortBinding))).flatMap entryTriples) = false ∧
    (∃ m, RunningState.extract_port_mapping
        (some ⟨some [("8080/tcp", some [⟨some "0.0.0.0", some "8081"⟩])]⟩) = .ok m) :=
  ⟨rfl,
   extract_port_mapping_panic_iff_bad_parse.1
     [("8080/tcp", some [⟨some "0.0.0.0", some "notaport"⟩])] rfl,
   rfl,
   extract_port_mapping_panic_iff_bad_parse.2
     [("8080/tcp", some [⟨some "0.0.0.0", some "8081"⟩])] rfl⟩

end Testcontainer
